import Mathlib

/-!
Verification of the adaptive media loader in `optimize.js` of the
`fromrayacamera` repository.  The script is a browser enhancement: it
lazily activates images carrying a `data-src` attribute via an
`IntersectionObserver`, tracks load/error outcomes of images carrying
`loading="lazy"`, classifies the network connection, toggles a page-wide
`low-bandwidth` class on connection changes, and issues one-time prefetch
hints on link hover.  Each browser-facing handler is embedded below as a
pure state-transition function on an explicit element state.
-/

namespace FromRayaCamera

/-- State of one `<img>` element as `optimize.js` sees it:
its live `src` attribute, its pending `data-src` attribute, its `loading`
attribute, the `complete` flag, the list of CSS classes, whether the
`IntersectionObserver` currently observes it, and whether `load` / `error`
listeners have been attached by `progressiveImageLoad`. -/
structure Img where
  src : Option String
  dataSrc : Option String
  loadingAttr : Option String
  complete : Bool
  classes : List String
  observed : Bool
  onLoad : Bool
  onError : Bool
deriving DecidableEq, Repr

/-- Body of the `imageObserver` callback for a single entry
(`optimize.js` lines 13-22): if the entry is intersecting, copy
`data-src` into `src` and remove `data-src` when present, then
unconditionally `unobserve` the target. -/
def processEntry (img : Img) (isIntersecting : Bool) : Img :=
  if isIntersecting then
    let img' :=
      match img.dataSrc with
      | some s => { img with src := some s, dataSrc := none }
      | none => img
    { img' with observed := false }
  else img

/-- Delivery of one intersection event by the observer: the callback runs
for an element only while it is observed (`unobserve` ends delivery). -/
def deliver (img : Img) (isIntersecting : Bool) : Img :=
  if img.observed then processEntry img isIntersecting else img

/-- Delivery of a whole sequence of intersection events. -/
def deliverSeq (img : Img) (evs : List Bool) : Img :=
  evs.foldl deliver img

/-- Per-image body of `progressiveImageLoad` (`optimize.js` lines 63-78):
only images selected by `img[loading="lazy"]` are processed; an already
complete image gets the `loaded` class at once, otherwise `load` and
`error` listeners are attached. -/
def register1 (img : Img) : Img :=
  if img.loadingAttr = some "lazy" then
    if img.complete then { img with classes := img.classes ++ ["loaded"] }
    else { img with onLoad := true, onError := true }
  else img

/-- A load-outcome event the browser can fire on an image. -/
inductive LoadEvent where
  | load
  | error
deriving DecidableEq, Repr

/-- Firing one load-outcome event: the attached `load` handler adds the
`loaded` class; the attached `error` handler adds the `error` class and
appends one `console.warn` diagnostic record holding `this.src`
(`optimize.js` lines 68-76).  An event with no attached handler does
nothing. -/
def fireEvent : Img × List (Option String) → LoadEvent → Img × List (Option String)
  | (img, log), .load =>
    if img.onLoad then ({ img with classes := img.classes ++ ["loaded"] }, log)
    else (img, log)
  | (img, log), .error =>
    if img.onError then
      ({ img with classes := img.classes ++ ["error"] }, log ++ [img.src])
    else (img, log)

/-- `isSlowConnection` (`optimize.js` lines 41-44): the connection signal,
when present, is slow when its effective type is `slow-2g`, `2g` or `3g`;
an absent signal is not slow. -/
def isSlowConnection (conn : Option String) : Bool :=
  match conn with
  | none => false
  | some t => t = "slow-2g" || t = "2g" || t = "3g"

/-- The classification the spec describes: slow exactly when the effective
type is 2G-equivalent or slower (`slow-2g` or `2g`).  Stated from the
spec's words, for comparison with `isSlowConnection` above. -/
def slowPerSpec (conn : Option String) : Bool :=
  match conn with
  | none => false
  | some t => t = "slow-2g" || t = "2g"

/-- The AOS settings object built by `optimize.js` lines 48-54. -/
structure AOSConfig where
  duration : Nat
  once : Bool
  disable : Bool
  offset : Nat
deriving DecidableEq, Repr

/-- The startup AOS decision (`optimize.js` lines 47-55): `AOS.init` is
called only on mobile or slow connections, with `disable` set exactly by
the slow classification. -/
def aosSettings (isMobile : Bool) (conn : Option String) : Option AOSConfig :=
  if isMobile || isSlowConnection conn then
    some { duration := 600, once := true, disable := isSlowConnection conn, offset := 50 }
  else none

/-- The `change`-handler classification in `adaptToNetworkCondition`
(`optimize.js` line 110): only `slow-2g` and `2g` count as low bandwidth
there. -/
def isLowBandwidthType (t : String) : Bool :=
  t = "slow-2g" || t = "2g"

/-- One `change` event on the connection (`optimize.js` lines 106-116):
the handler adds the `low-bandwidth` class when the new effective type is
`slow-2g` or `2g` and removes it otherwise, so the resulting flag ignores
its previous value. -/
def processChange (_flag : Bool) (t : String) : Bool :=
  isLowBandwidthType t

/-- Folding a sequence of connection `change` events over the
`low-bandwidth` flag. -/
def processChanges (flag : Bool) (evs : List String) : Bool :=
  evs.foldl processChange flag

/-- Page-level state of `adaptToNetworkCondition`: the `low-bandwidth`
flag on `document.body` and whether the `change` listener was
subscribed. -/
structure NetState where
  lowBandwidth : Bool
  subscribed : Bool
deriving DecidableEq, Repr

/-- Page state before `adaptToNetworkCondition` runs. -/
def netInit : NetState :=
  { lowBandwidth := false, subscribed := false }

/-- `adaptToNetworkCondition` (`optimize.js` lines 101-123): when
`connection` is absent from `navigator` the whole body is skipped;
otherwise the `change` listener is subscribed and the initial check sets
the flag from the current effective type. -/
def adaptToNetworkCondition (conn : Option String) (s : NetState) : NetState :=
  match conn with
  | none => s
  | some t => { lowBandwidth := isLowBandwidthType t, subscribed := true }

/-- Delivery of one connection `change` event at page level: the handler
runs only if the subscription exists. -/
def netStep (s : NetState) (t : String) : NetState :=
  if s.subscribed then { s with lowBandwidth := isLowBandwidthType t } else s

/-- Delivery of a sequence of connection `change` events at page level. -/
def netRun (s : NetState) (evs : List String) : NetState :=
  evs.foldl netStep s

/-- State of one navigational link registered by
`prefetchCriticalResources`: its target URL and whether its one-shot
`mouseenter` listener (`\x7b once: true \x7d`, `optimize.js` line 138) has
already been consumed. -/
structure LinkState where
  href : String
  fired : Bool
deriving DecidableEq, Repr

/-- A freshly registered link: its listener has not fired yet. -/
def freshLink (href : String) : LinkState :=
  { href := href, fired := false }

/-- One `mouseenter` (hover) event on a registered link
(`optimize.js` lines 131-138): with `once: true` the handler runs only the
first time, appending one prefetch hint for the link's target to
`document.head`. -/
def hover : LinkState × List String → LinkState × List String
  | (l, hints) =>
    if l.fired then (l, hints)
    else ({ l with fired := true }, hints ++ [l.href])

/-- `n` successive hover events on the same link. -/
def hoverN (n : Nat) (s : LinkState × List String) : LinkState × List String :=
  Nat.rec s (fun _ acc => hover acc) n

/-- A deferred image as the markup contract produces it: pending source
present, observed, not yet activated. -/
def imgPending : Img :=
  { src := none, dataSrc := some "photo.jpg", loadingAttr := some "lazy",
    complete := false, classes := [], observed := true, onLoad := false, onError := false }

/-- An image after activation: live source set, marker and observation
gone. -/
def imgActivated : Img :=
  { src := some "photo.jpg", dataSrc := none, loadingAttr := some "lazy",
    complete := false, classes := [], observed := false, onLoad := false, onError := false }

/-- An ordinary document image with neither the lazy-loading attribute
nor the pending-source marker. -/
def imgPlain : Img :=
  { src := some "logo.png", dataSrc := none, loadingAttr := none,
    complete := false, classes := [], observed := false, onLoad := false, onError := false }

/-- A not-yet-complete `loading="lazy"` image, before registration. -/
def imgLazyFresh : Img :=
  { src := some "gallery1.png", dataSrc := none, loadingAttr := some "lazy",
    complete := false, classes := [], observed := false, onLoad := false, onError := false }

/-- A `loading="lazy"` image that already finished loading before
registration. -/
def imgLazyComplete : Img :=
  { src := some "gallery2.png", dataSrc := none, loadingAttr := some "lazy",
    complete := true, classes := [], observed := false, onLoad := false, onError := false }

/-- An observed image that carries no pending-source marker. -/
def imgObservedNoMarker : Img :=
  { src := some "hero.png", dataSrc := none, loadingAttr := some "lazy",
    complete := false, classes := [], observed := true, onLoad := false, onError := false }

/- ------------------------------------------------------------------ -/
/- Helper lemmas                                                      -/
/- ------------------------------------------------------------------ -/

/-- Once an image is unobserved, the observer delivers nothing more to
it: any sequence of further intersection events leaves it unchanged. -/
theorem deliverSeq_unobserved (img : Img) (hobs : img.observed = false)
    (evs : List Bool) : deliverSeq img evs = img := by
  induction evs with
  | nil => rfl
  | cons e evs ih =>
    have h1 : deliver img e = img := by simp [deliver, hobs]
    rw [deliverSeq, List.foldl_cons, h1]
    exact ih

/-- A sequence of connection changes ending in `t` leaves the
`low-bandwidth` flag exactly at the classification of `t`. -/
theorem processChanges_last (b : Bool) (evs : List String) (t : String) :
    processChanges b (evs ++ [t]) = isLowBandwidthType t := by
  simp [processChanges, List.foldl_append, processChange]

/-- With no subscription, connection change events never alter the page
network state. -/
theorem netRun_unsubscribed (s : NetState) (hs : s.subscribed = false)
    (evs : List String) : netRun s evs = s := by
  induction evs with
  | nil => rfl
  | cons e evs ih =>
    have h1 : netStep s e = s := by simp [netStep, hs]
    rw [netRun, List.foldl_cons, h1]
    exact ih

/-- Hovering is idempotent: a second hover on any link state changes
nothing. -/
theorem hover_idem (s : LinkState × List String) : hover (hover s) = hover s := by
  obtain ⟨l, hints⟩ := s
  by_cases hf : l.fired <;> simp [hover, hf]

/-- Any positive number of hovers equals a single hover. -/
theorem hoverN_succ_eq (n : Nat) (s : LinkState × List String) :
    hoverN (n + 1) s = hover s := by
  induction n with
  | zero => rfl
  | succ n ih =>
    show hover (hoverN (n + 1) s) = hover s
    rw [ih, hover_idem]

/- ------------------------------------------------------------------ -/
/- Claim theorems                                                     -/
/- ------------------------------------------------------------------ -/

/-- Claim C1: for every observed image carrying a pending-source marker,
after an intersecting event is delivered its live `src` equals the
previously pending source URL and the `data-src` marker is absent. -/
theorem c1_activation_promotes_pending_source (img : Img) (s : String)
    (hobs : img.observed = true) (hds : img.dataSrc = some s) :
    (deliver img true).src = some s ∧ (deliver img true).dataSrc = none := by
  simp [deliver, processEntry, hobs, hds]

/-- Witness for C1 on a concrete deferred image. -/
theorem c1_witness :
    (deliver imgPending true).src = some "photo.jpg" ∧
    (deliver imgPending true).dataSrc = none :=
  c1_activation_promotes_pending_source imgPending "photo.jpg" rfl rfl

/-- Claim C2: activation is idempotent — a second intersecting event
after the first changes nothing, and on an already-activated image
(marker and observation gone) an intersecting event is a no-op. -/
theorem c2_activation_idempotent (img : Img) :
    deliver (deliver img true) true = deliver img true ∧
    (img.dataSrc = none → img.observed = false → deliver img true = img) := by
  constructor
  · cases hobs : img.observed <;> cases hds : img.dataSrc <;>
      simp [deliver, processEntry, hobs, hds]
  · intro _ hobs
    simp [deliver, hobs]

/-- Witness for C2 on a concrete already-activated image. -/
theorem c2_witness : deliver imgActivated true = imgActivated :=
  (c2_activation_idempotent imgActivated).2 rfl rfl

/-- Counterexample to C3 as stated: an ordinary image with no
`loading="lazy"` attribute passes through `progressiveImageLoad`
untouched — no completion or failure handler is attached and no state
class is ever added, so load-outcome tracking does not cover every image
in the document. -/
theorem c3_counterexample :
    register1 imgPlain = imgPlain ∧
    (register1 imgPlain).onLoad = false ∧
    (register1 imgPlain).onError = false ∧
    "loaded" ∉ (register1 imgPlain).classes ∧
    "error" ∉ (register1 imgPlain).classes := by
  decide

/-- Claim C3 (amended): load-outcome tracking covers every image bearing
the native `loading="lazy"` attribute, whether or not it carries the
pending-source marker: a complete one receives the `loaded` class at
registration, and a not-yet-complete one gets both completion and
failure handlers attached. -/
theorem c3_lazy_images_tracked (img : Img)
    (hl : img.loadingAttr = some "lazy") :
    (img.complete = true → "loaded" ∈ (register1 img).classes) ∧
    (img.complete = false →
      (register1 img).onLoad = true ∧ (register1 img).onError = true) := by
  constructor <;> intro hc <;> simp [register1, hl, hc]

/-- Witness for C3 on a concrete fresh lazy image without a marker. -/
theorem c3_witness :
    (register1 imgLazyFresh).onLoad = true ∧
    (register1 imgLazyFresh).onError = true :=
  (c3_lazy_images_tracked imgLazyFresh rfl).2 rfl

/-- Counterexample to C4 as stated: the claim covers every image whose
fetch fails, but an image without the `loading="lazy"` attribute is never
tracked by `progressiveImageLoad`, so when its fetch fails (the browser
fires the `error` event) it receives no `error` state and no diagnostic
record is emitted for it. -/
theorem c4_counterexample :
    (fireEvent (register1 imgPlain, []) .error).1.classes = [] ∧
    "error" ∉ (fireEvent (register1 imgPlain, []) .error).1.classes ∧
    (fireEvent (register1 imgPlain, []) .error).2 = [] := by
  decide

/-- Claim C4 (amended): for every image tracked by
`progressiveImageLoad` — bearing `loading="lazy"` and not yet complete at
registration — whose fetch fails (the browser fires the `error` event),
the image ends with exactly the `error` class, never `loaded`, and
exactly one diagnostic record holding its source URL is emitted. -/
theorem c4_failed_image_error_state (img : Img)
    (hl : img.loadingAttr = some "lazy") (hc : img.complete = false)
    (hcl : img.classes = []) :
    (fireEvent (register1 img, []) .error).1.classes = ["error"] ∧
    "loaded" ∉ (fireEvent (register1 img, []) .error).1.classes ∧
    (fireEvent (register1 img, []) .error).2 = [img.src] := by
  simp [register1, fireEvent, hl, hc, hcl]

/-- Witness for C4 on a concrete fresh lazy image. -/
theorem c4_witness :
    (fireEvent (register1 imgLazyFresh, []) .error).1.classes = ["error"] ∧
    "loaded" ∉ (fireEvent (register1 imgLazyFresh, []) .error).1.classes ∧
    (fireEvent (register1 imgLazyFresh, []) .error).2 = [some "gallery1.png"] :=
  c4_failed_image_error_state imgLazyFresh rfl rfl rfl

/-- Counterexample to C5 as stated: the startup classification also
deems a `3g` connection slow, although `3g` is not 2G-equivalent or
slower per the spec's own classification. -/
theorem c5_counterexample :
    isSlowConnection (some "3g") = true ∧ slowPerSpec (some "3g") = false := by
  decide

/-- Claim C5 (amended): the startup classification deems a connection
slow exactly when the signal reports `slow-2g`, `2g` or `3g`; whenever
`AOS.init` runs, entrance animations are disabled exactly under that
slow classification. -/
theorem c5_slow_classification (conn : Option String) (isMobile : Bool) :
    (isSlowConnection conn = true ↔
      conn = some "slow-2g" ∨ conn = some "2g" ∨ conn = some "3g") ∧
    ∀ cfg, aosSettings isMobile conn = some cfg →
      cfg.disable = isSlowConnection conn := by
  constructor
  · cases conn with
    | none => simp [isSlowConnection]
    | some t => simp [isSlowConnection, or_assoc]
  · intro cfg h
    unfold aosSettings at h
    split at h
    · injection h with h
      rw [← h]
    · cases h

/-- Witness for C5 on a concrete `3g` connection with AOS running. -/
theorem c5_witness :
    ({ duration := 600, once := true, disable := true, offset := 50 } :
      AOSConfig).disable = isSlowConnection (some "3g") :=
  (c5_slow_classification (some "3g") false).2 _ (by decide)

/-- Claim C6: after a change event reporting `2g` the page-wide
`low-bandwidth` flag is set; after a subsequent change to `4g` it is
cleared; in general the flag after any sequence of changes reflects only
the most recently reported effective type. -/
theorem c6_latest_change_wins (b : Bool) (pre mid : List String) :
    processChanges b (pre ++ ["2g"]) = true ∧
    processChanges b ((pre ++ ["2g"]) ++ (mid ++ ["4g"])) = false ∧
    ∀ (evs : List String) (t : String),
      processChanges b (evs ++ [t]) = isLowBandwidthType t := by
  refine ⟨?_, ?_, fun evs t => processChanges_last b evs t⟩
  · rw [processChanges_last]
    decide
  · rw [← List.append_assoc, processChanges_last]
    decide

/-- Claim C7: an image that is already complete at registration receives
the `loaded` class during registration itself, and no load handler is
attached, so the state does not depend on any subsequent load event. -/
theorem c7_complete_loaded_at_registration (img : Img)
    (hl : img.loadingAttr = some "lazy") (hc : img.complete = true) :
    "loaded" ∈ (register1 img).classes ∧
    (register1 img).onLoad = img.onLoad ∧
    (register1 img).onError = img.onError := by
  simp [register1, hl, hc]

/-- Witness for C7 on a concrete already-complete lazy image. -/
theorem c7_witness :
    "loaded" ∈ (register1 imgLazyComplete).classes ∧
    (register1 imgLazyComplete).onLoad = imgLazyComplete.onLoad ∧
    (register1 imgLazyComplete).onError = imgLazyComplete.onError :=
  c7_complete_loaded_at_registration imgLazyComplete rfl rfl

/-- Claim C8: for a registered link, any positive number of hover events
issues exactly the one prefetch hint of the first hover — later hovers
change nothing — and no number of hovers ever issues more than one
hint. -/
theorem c8_prefetch_at_most_once (href : String) (n : Nat) :
    hoverN (n + 1) (freshLink href, []) = hover (freshLink href, []) ∧
    (hoverN (n + 1) (freshLink href, [])).2 = [href] ∧
    ∀ m : Nat, ((hoverN m (freshLink href, [])).2).length ≤ 1 := by
  refine ⟨hoverN_succ_eq n _, ?_, ?_⟩
  · rw [hoverN_succ_eq]
    rfl
  · intro m
    cases m with
    | zero => simp [hoverN]
    | succ m => rw [hoverN_succ_eq]; simp [hover, freshLink]

/-- Claim C9: with the connection-quality signal entirely absent,
`adaptToNetworkCondition` subscribes nothing, and over the whole page
lifetime — any sequence of would-be change events — the reduced-activity
flag is never set. -/
theorem c9_absent_signal_degrades_silently (evs : List String) :
    (netRun (adaptToNetworkCondition none netInit) evs).lowBandwidth = false ∧
    (netRun (adaptToNetworkCondition none netInit) evs).subscribed = false := by
  have h : adaptToNetworkCondition none netInit = netInit := rfl
  rw [h, netRun_unsubscribed netInit rfl evs]
  exact ⟨rfl, rfl⟩

/-- Claim C10: an intersecting event delivered for an observed image
without a pending-source marker leaves its live source (and the absent
marker) unchanged, yet ends the observation, so no later intersection
event can ever change its source. -/
theorem c10_markerless_intersection_retires_observation (img : Img)
    (hobs : img.observed = true) (hds : img.dataSrc = none) :
    (deliver img true).src = img.src ∧
    (deliver img true).dataSrc = none ∧
    (deliver img true).observed = false ∧
    ∀ evs : List Bool, deliverSeq (deliver img true) evs = deliver img true := by
  have hd : deliver img true =
      { img with observed := false } := by
    simp [deliver, processEntry, hobs, hds]
  rw [hd]
  refine ⟨rfl, hds, rfl, ?_⟩
  intro evs
  exact deliverSeq_unobserved _ rfl evs

/-- Witness for C10 on a concrete observed, markerless image. -/
theorem c10_witness :
    (deliver imgObservedNoMarker true).src = imgObservedNoMarker.src ∧
    (deliver imgObservedNoMarker true).dataSrc = none ∧
    (deliver imgObservedNoMarker true).observed = false ∧
    ∀ evs : List Bool,
      deliverSeq (deliver imgObservedNoMarker true) evs =
        deliver imgObservedNoMarker true :=
  c10_markerless_intersection_retires_observation imgObservedNoMarker rfl rfl

end FromRayaCamera
